import Mathlib

/-!
Verification of the page-health probe and browser-test scripts of the
forbidden-library-native repository.

The scripts (`scripts/debug-page.py`, `scripts/browser-test.py`,
`scripts/simple-debug.py`) are embedded shallowly: strings are `List Char`,
page snapshots and console entries are structures, and each check becomes a
pure function of its explicit inputs.  External effects (whether a Selenium
call raises, what the browser returns) are passed in as explicit parameters.
-/

namespace ForbiddenLibrary

/-- A character-list is matched at the head of another: `leadMatch n h` is
true when `n` is an initial segment of `h` (Python `str.startswith`). -/
def leadMatch : List Char → List Char → Bool
  | [], _ => true
  | _ :: _, [] => false
  | a :: as, b :: bs => a == b && leadMatch as bs

/-- Substring occurrence: `hasSub n h` is true when `n` occurs contiguously
anywhere in `h` (Python's `n in h` on strings). -/
def hasSub (n : List Char) : List Char → Bool
  | [] => n.isEmpty
  | b :: bs => leadMatch n (b :: bs) || hasSub n bs

/-- Lower-case every character (Python `str.lower` on ASCII text). -/
def lowerStr (s : List Char) : List Char := s.map Char.toLower

/-- The `error_patterns` list of `scripts/debug-page.py` lines 54-58,
verbatim: eighteen case variants of nine distinct patterns. -/
def error_patterns : List (List Char) :=
  ["error".toList, "Error".toList, "ERROR".toList,
   "exception".toList, "Exception".toList, "EXCEPTION".toList,
   "failed".toList, "Failed".toList, "FAILED".toList,
   "not found".toList, "Not Found".toList, "404".toList,
   "500".toList, "502".toList, "503".toList,
   "timeout".toList, "Timeout".toList, "TIMEOUT".toList]

/-- The fixed pattern vocabulary: the distinct lower-cased members of
`error_patterns`.  The scan in `debug-page.py` line 64 tests
`pattern.lower() in page_source`, so under signal-set semantics the case
variants collapse to these nine patterns. -/
def patternVocab : List (List Char) := (error_patterns.map lowerStr).dedup

/-- One buffered browser console entry (`driver.get_log('browser')` items). -/
structure ConsoleEntry where
  level : List Char
  message : List Char
deriving DecidableEq

/-- Immutable result of a navigation (spec section 3, PageSnapshot). -/
structure PageSnapshot where
  title : List Char
  source : List Char
  bodyText : List Char
  consoleLog : List ConsoleEntry
  loadTimeMs : Nat
deriving DecidableEq

/-- A named heuristic finding contributing to a verdict (spec Glossary). -/
inductive Signal where
  | shortSource : Signal
  | patternSig : List Char → Signal
  | missingMarker : List Char → Signal
  | consoleError : Signal
deriving DecidableEq

/-- The three health states. -/
inductive Verdict where
  | Healthy : Verdict
  | Degraded : Verdict
  | Broken : Verdict
deriving DecidableEq

/-- Classification output: a verdict plus the matched signal set. -/
structure HealthVerdict where
  verdict : Verdict
  signals : List Signal
deriving DecidableEq

/-- A console entry counted as an error (level `SEVERE`/`ERROR`).
Modelled from the spec: `debug-page.py` lines 85-91 only print the buffered
entries; the severity filter is the spec's console-log check (step 4). -/
def severeEntry (e : ConsoleEntry) : Bool :=
  e.level == "SEVERE".toList || e.level == "ERROR".toList

/-- The pattern scan of `debug-page.py` lines 60-65: lower-case the page
source and keep each vocabulary pattern that occurs as a substring. -/
def matchedPatterns (source : List Char) : List (List Char) :=
  patternVocab.filter (fun p => hasSub p (lowerStr source))

/-- The signal set of `classify` (spec section 4.1 steps 1-4).
Step 1 is `debug-page.py` line 100 (`len(page_source) < 1000`), step 2 is
lines 60-65, step 3 generalises the verbatim marker checks of lines 106-111
(`"Forbidden Library" in driver.page_source`) to caller-supplied markers,
step 4 is the console check over `severeEntry`. -/
def classifySignals (snap : PageSnapshot) (expectedMarkers : List (List Char)) :
    List Signal :=
  (if snap.source.length < 1000 then [Signal.shortSource] else []) ++
  (matchedPatterns snap.source).map Signal.patternSig ++
  (expectedMarkers.filter (fun m => !(hasSub m snap.source))).map
    Signal.missingMarker ++
  (if snap.consoleLog.any severeEntry then [Signal.consoleError] else [])

/-- Verdict derivation.  Modelled from the spec: the scripts only print
warnings; spec section 4.1 step 5 derives `Broken` if `short-source` is
present or more than half of the fixed error patterns matched, `Degraded`
if any other signal is present, `Healthy` otherwise. -/
def deriveVerdict (snap : PageSnapshot) (expectedMarkers : List (List Char)) :
    Verdict :=
  if (classifySignals snap expectedMarkers).contains Signal.shortSource ||
      patternVocab.length < 2 * (matchedPatterns snap.source).length then
    Verdict.Broken
  else if (classifySignals snap expectedMarkers).isEmpty then Verdict.Healthy
  else Verdict.Degraded

/-- `classify(snapshot, expectedMarkers) -> HealthVerdict` (spec 4.1). -/
def classify (snap : PageSnapshot) (expectedMarkers : List (List Char)) :
    HealthVerdict :=
  { verdict := deriveVerdict snap expectedMarkers
    signals := classifySignals snap expectedMarkers }

/-- Recogniser for pattern signals, used to compare pattern-signal sets. -/
def Signal.isPatternSig : Signal → Bool
  | Signal.patternSig _ => true
  | _ => false

/-! ### browser-test.py -/

/-- Characters removed by Python `str.strip()` with no argument. -/
def pyWhitespace (c : Char) : Bool :=
  c == ' ' || c == '\t' || c == '\n' || c == '\r' || c == '\x0B' || c == '\x0C'

/-- Python `str.strip()`: drop leading and trailing whitespace. -/
def pyStrip (s : List Char) : List Char :=
  ((s.dropWhile pyWhitespace).reverse.dropWhile pyWhitespace).reverse

/-- `test_health_check` (`browser-test.py` lines 61-80): the recorded outcome
of the health check.  The input is `none` when fetching the `/health` body
raises (navigation or element lookup failure), else `some` of the body text
returned by the browser.  The code strips the text and compares it with the
literal `"healthy"`. -/
def test_health_check (bodyText : Option (List Char)) : Bool :=
  match bodyText with
  | none => false
  | some t => pyStrip t == "healthy".toList

/-- A value stored in `self.results`: either a bare boolean or a dict whose
`"success"` key may be absent (`browser-test.py` lines 112-118, 184-188). -/
inductive TestResult where
  | plain : Bool → TestResult
  | withInfo : Option Bool → TestResult
deriving DecidableEq

/-- How `generate_report` reads one recorded result
(`browser-test.py` lines 246-250): a dict counts as passed unless its
`"success"` key is present and false. -/
def TestResult.passed : TestResult → Bool
  | TestResult.plain b => b
  | TestResult.withInfo s => s.getD true

/-- `generate_report` (`browser-test.py` lines 238-265): counts passed
results and returns whether `passed == total`. -/
def generate_report (results : List TestResult) : Bool :=
  results.countP TestResult.passed == results.length

/-- The externally determined outcome of one run: whether driver setup
succeeded, and the results the five checks record when it did. -/
structure RunOutcome where
  setupOk : Bool
  checks : List TestResult
deriving DecidableEq

/-- The results recorded during a run: none when `setup_driver` fails,
because `run_all_tests` returns before any check executes
(`browser-test.py` lines 272-273). -/
def recordedResults (r : RunOutcome) : List TestResult :=
  if r.setupOk then r.checks else []

/-- `run_all_tests` (`browser-test.py` lines 267-294): `False` when setup
fails, else the value of `generate_report`. -/
def run_all_tests (r : RunOutcome) : Bool :=
  r.setupOk && generate_report r.checks

/-- `main` (`browser-test.py` line 315): `sys.exit(0 if success else 1)`. -/
def mainExit (r : RunOutcome) : Nat :=
  if run_all_tests r then 0 else 1

/-- Whether the browser session was ever opened and whether it was closed
by the time the run terminated. -/
structure SessionTrace where
  opened : Bool
  closed : Bool
deriving DecidableEq

/-- Session lifecycle of `browser-test.py`.  `createRaises` is true when
both `webdriver.Chrome` attempts raise (lines 45-51); `configureRaises` is
true when `self.driver.implicitly_wait(10)` (line 53) raises after the
driver was created.  In the first case `setup_driver` catches and returns
`False` with no driver opened.  In the second case the driver is open, the
`except` block returns `False`, and `run_all_tests` returns at line 273
before reaching the `try`/`finally` that calls `driver.quit()` (lines
291-294), so the session is never closed.  Otherwise the checks run inside
the `try` (each catches its own exceptions) and `finally` quits. -/
def runAllTestsTrace (createRaises configureRaises : Bool) : SessionTrace :=
  if createRaises then { opened := false, closed := false }
  else if configureRaises then { opened := true, closed := false }
  else { opened := true, closed := true }

/-- Session lifecycle of `debug_page` in `debug-page.py` (lines 23-127):
one `try`/`except`/`finally` encloses everything from driver creation on,
and the `finally` quits whenever `'driver' in locals()`; so the session is
closed whenever creation succeeded, wherever the body raised. -/
def debugPageTrace (createRaises bodyRaises : Bool) : SessionTrace :=
  if createRaises then { opened := false, closed := false }
  else { opened := true, closed := true }

/-- One viewport of the `viewports` table (`browser-test.py` lines 129-133). -/
structure Viewport where
  width : Nat
  height : Nat
  label : List Char
deriving DecidableEq

/-- Per-viewport probe record (spec section 3). -/
structure ViewportProbeResult where
  viewport : Viewport
  bodyDisplayed : Bool
deriving DecidableEq

/-- `sampleViewports` (spec section 4.1).  Modelled from the spec:
`test_responsive_design` (`browser-test.py` lines 126-153) loops over the
viewports in order, resizing and querying `body.is_displayed()` for each,
but only prints per-viewport lines and records a single boolean; the spec
returns one `ViewportProbeResult` per viewport instead.  `displayed` is the
browser's answer for each viewport. -/
def sampleViewports (displayed : Viewport → Bool) (viewports : List Viewport) :
    List ViewportProbeResult :=
  viewports.map (fun v => { viewport := v, bodyDisplayed := displayed v })

/-- `test_user_interaction` (`browser-test.py` lines 196-226): the recorded
outcome given whether any Selenium call raised and the numbers of buttons,
links and inputs found.  Both branches of the element-count test record
`True` (lines 214-221); only the `except` branch records `False`. -/
def test_user_interaction (raised : Bool)
    (buttons links inputs : Nat) : Bool :=
  if raised then false
  else if 0 < buttons || 0 < links then true
  else true

/-! ### Supporting lemmas -/

/-- The fixed vocabulary has nine patterns. -/
theorem patternVocab_length : patternVocab.length = 9 := by decide

/-- The signal set is empty exactly when the derived verdict is Healthy. -/
theorem classifySignals_eq_nil_iff (snap : PageSnapshot)
    (markers : List (List Char)) :
    classifySignals snap markers = [] ↔
      deriveVerdict snap markers = Verdict.Healthy := by
  unfold deriveVerdict
  constructor
  · intro h
    have hpat : matchedPatterns snap.source = [] := by
      unfold classifySignals at h
      rcases List.append_eq_nil.mp h with ⟨h123, -⟩
      rcases List.append_eq_nil.mp h123 with ⟨h12, -⟩
      rcases List.append_eq_nil.mp h12 with ⟨-, h2⟩
      exact List.map_eq_nil_iff.mp h2
    rw [h, hpat]
    simp
  · intro h
    by_cases hA : ((classifySignals snap markers).contains Signal.shortSource ||
        decide (patternVocab.length <
          2 * (matchedPatterns snap.source).length)) = true
    · simp only [hA] at h
      simp at h
    · simp only [Bool.or_eq_true, decide_eq_true_eq] at hA
      push_neg at hA
      by_cases hB : (classifySignals snap markers).isEmpty = true
      · exact List.isEmpty_iff.mp hB
      · exfalso
        rw [if_neg, if_neg] at h
        · exact Verdict.noConfusion h
        · exact hB
        · simp only [Bool.or_eq_true, decide_eq_true_eq]
          push_neg
          exact hA

/-- With no markers and no severe console entries, the signal set is just
the matched pattern signals. -/
theorem classifySignals_no_markers (snap : PageSnapshot)
    (hlen : 1000 ≤ snap.source.length)
    (hcon : ∀ e ∈ snap.consoleLog, severeEntry e = false) :
    classifySignals snap [] =
      (matchedPatterns snap.source).map Signal.patternSig := by
  unfold classifySignals
  have h1 : ¬ snap.source.length < 1000 := not_lt.mpr hlen
  have h4 : snap.consoleLog.any severeEntry = false := by
    rw [List.any_eq_false]
    intro e he
    simp [hcon e he]
  simp [h1, h4]

/-- The pattern-signal part of the signal set is the matched patterns. -/
theorem filter_patternSig (snap : PageSnapshot) (markers : List (List Char)) :
    (classifySignals snap markers).filter Signal.isPatternSig =
      (matchedPatterns snap.source).map Signal.patternSig := by
  unfold classifySignals
  simp only [List.filter_append]
  have hA : ∀ c : Prop, ∀ i : Decidable c,
      (if c then [Signal.shortSource] else []).filter Signal.isPatternSig
        = [] := by
    intro c i
    split <;> simp [Signal.isPatternSig, List.filter]
  have hD : ∀ c : Prop, ∀ i : Decidable c,
      (if c then [Signal.consoleError] else []).filter Signal.isPatternSig
        = [] := by
    intro c i
    split <;> simp [Signal.isPatternSig, List.filter]
  rw [hA, hD]
  have hB : ((matchedPatterns snap.source).map Signal.patternSig).filter
      Signal.isPatternSig = (matchedPatterns snap.source).map
        Signal.patternSig := by
    rw [List.filter_eq_self]
    intro s hs
    rcases List.mem_map.mp hs with ⟨p, -, rfl⟩
    rfl
  have hC : ((markers.filter (fun m => !(hasSub m snap.source))).map
      Signal.missingMarker).filter Signal.isPatternSig = [] := by
    rw [List.filter_eq_nil_iff]
    intro s hs
    rcases List.mem_map.mp hs with ⟨m, -, rfl⟩
    simp [Signal.isPatternSig]
  rw [hB, hC]
  simp

/-! ### Claim theorems -/

/-- Claim C1: for every snapshot and every set of expected markers, the
HealthVerdict returned by classify has an empty signal set if and only if
its verdict is Healthy. -/
theorem c1_signals_empty_iff_healthy (snap : PageSnapshot)
    (markers : List (List Char)) :
    (classify snap markers).signals = [] ↔
      (classify snap markers).verdict = Verdict.Healthy :=
  classifySignals_eq_nil_iff snap markers

/-- Claim C2: for every snapshot whose source has fewer than 1000
characters, classify returns verdict Broken, regardless of which other
signals are present or absent. -/
theorem c2_short_source_broken (snap : PageSnapshot)
    (markers : List (List Char)) (h : snap.source.length < 1000) :
    (classify snap markers).verdict = Verdict.Broken := by
  show deriveVerdict snap markers = Verdict.Broken
  unfold deriveVerdict
  have hc : (classifySignals snap markers).contains Signal.shortSource
      = true := by
    apply List.elem_eq_true_of_mem
    unfold classifySignals
    rw [if_pos h]
    exact List.mem_append_left _
      (List.mem_append_left _
        (List.mem_append_left _ (List.mem_singleton.mpr rfl)))
  rw [hc]
  simp

/-- Witness for C2 at a concrete three-character snapshot. -/
theorem c2_short_source_broken_witness :
    (classify { title := [], source := "err".toList, bodyText := [],
                consoleLog := [], loadTimeMs := 0 } []).verdict
      = Verdict.Broken :=
  c2_short_source_broken _ [] (by decide)

/-- Claim C3: a snapshot with source length at least 1000, none of the nine
error patterns present case-insensitively, every expected marker present
verbatim, and no SEVERE/ERROR console entry classifies as Healthy with an
empty signal set. -/
theorem c3_clean_snapshot_healthy (snap : PageSnapshot)
    (markers : List (List Char))
    (hlen : 1000 ≤ snap.source.length)
    (hpat : ∀ p ∈ patternVocab, hasSub p (lowerStr snap.source) = false)
    (hmark : ∀ m ∈ markers, hasSub m snap.source = true)
    (hcon : ∀ e ∈ snap.consoleLog, severeEntry e = false) :
    classify snap markers
      = { verdict := Verdict.Healthy, signals := [] } := by
  have hsig : classifySignals snap markers = [] := by
    unfold classifySignals
    have h1 : ¬ snap.source.length < 1000 := not_lt.mpr hlen
    have h2 : matchedPatterns snap.source = [] := by
      unfold matchedPatterns
      rw [List.filter_eq_nil_iff]
      intro p hp
      simp [hpat p hp]
    have h3 : markers.filter (fun m => !(hasSub m snap.source)) = [] := by
      rw [List.filter_eq_nil_iff]
      intro m hm
      simp [hmark m hm]
    have h4 : snap.consoleLog.any severeEntry = false := by
      rw [List.any_eq_false]
      intro e he
      simp [hcon e he]
    simp [h1, h2, h3, h4]
  have hv : deriveVerdict snap markers = Verdict.Healthy :=
    (classifySignals_eq_nil_iff snap markers).mp hsig
  show ({ verdict := deriveVerdict snap markers,
          signals := classifySignals snap markers } : HealthVerdict) = _
  rw [hsig, hv]

/-- A clean 1000-character snapshot used as the C3 witness. -/
def cleanSnap : PageSnapshot :=
  { title := [], source := List.replicate 1000 'z', bodyText := [],
    consoleLog := [], loadTimeMs := 0 }

set_option maxRecDepth 200000 in
/-- Witness for C3 at a concrete 1000-character snapshot. -/
theorem c3_clean_snapshot_healthy_witness :
    classify cleanSnap ["zz".toList]
      = { verdict := Verdict.Healthy, signals := [] } :=
  c3_clean_snapshot_healthy cleanSnap ["zz".toList] (by decide) (by decide)
    (by decide) (by decide)

/-- Claim C4: with source length at least 1000 and no other signal sources,
classify returns Broken exactly when more than half of the nine fixed
error patterns match; with between one and four matches it returns
Degraded. -/
theorem c4_pattern_threshold (snap : PageSnapshot)
    (hlen : 1000 ≤ snap.source.length)
    (hcon : ∀ e ∈ snap.consoleLog, severeEntry e = false) :
    ((classify snap []).verdict = Verdict.Broken ↔
      9 < 2 * (matchedPatterns snap.source).length) ∧
    (1 ≤ (matchedPatterns snap.source).length →
      2 * (matchedPatterns snap.source).length ≤ 9 →
      (classify snap []).verdict = Verdict.Degraded) := by
  have hs : classifySignals snap [] =
      (matchedPatterns snap.source).map Signal.patternSig :=
    classifySignals_no_markers snap hlen hcon
  have hnc : (classifySignals snap []).contains Signal.shortSource
      = false := by
    rw [hs]
    rw [List.contains_eq_any_beq, List.any_eq_false]
    intro s hsmem
    rcases List.mem_map.mp hsmem with ⟨p, -, rfl⟩
    intro hcontra
    exact Signal.noConfusion (eq_of_beq hcontra)
  have hempty : (classifySignals snap []).isEmpty = true ↔
      (matchedPatterns snap.source).length = 0 := by
    rw [hs, List.isEmpty_iff, List.map_eq_nil_iff, List.length_eq_zero]
  have hv : (classify snap []).verdict = deriveVerdict snap [] := rfl
  rw [hv]
  unfold deriveVerdict
  rw [hnc, patternVocab_length]
  by_cases hbig : 9 < 2 * (matchedPatterns snap.source).length
  · constructor
    · simp [hbig]
    · intro h1 h9
      omega
  · have hc1 : ¬ ((false ||
        decide (9 < 2 * (matchedPatterns snap.source).length)) = true) := by
      simp [hbig]
    constructor
    · rw [if_neg hc1]
      constructor
      · intro h
        by_cases he : (classifySignals snap []).isEmpty = true
        · rw [if_pos he] at h
          exact absurd h (by simp)
        · rw [if_neg he] at h
          exact absurd h (by simp)
      · intro h
        exact absurd h hbig
    · intro h1 h9
      rw [if_neg hc1]
      have hne : ¬ ((classifySignals snap []).isEmpty = true) := by
        rw [hempty]
        omega
      rw [if_neg hne]

/-- Snapshot matching exactly five of the nine patterns, padded past 1000
characters. -/
def snapFive : PageSnapshot :=
  { title := [], bodyText := [], consoleLog := [], loadTimeMs := 0,
    source := "error exception failed not found 404".toList ++
      List.replicate 964 'z' }

/-- Snapshot matching exactly four of the nine patterns, padded past 1000
characters. -/
def snapFour : PageSnapshot :=
  { title := [], bodyText := [], consoleLog := [], loadTimeMs := 0,
    source := "error exception failed not found".toList ++
      List.replicate 968 'z' }

set_option maxRecDepth 400000 in
/-- Witness for C4: five matched patterns give Broken, four give Degraded. -/
theorem c4_pattern_threshold_witness :
    (classify snapFive []).verdict = Verdict.Broken ∧
    (classify snapFour []).verdict = Verdict.Degraded :=
  ⟨((c4_pattern_threshold snapFive (by decide) (by decide)).1).mpr (by decide),
   (c4_pattern_threshold snapFour (by decide) (by decide)).2
     (by decide) (by decide)⟩

/-- Claim C5: pattern matching is case-insensitive — two snapshots whose
sources agree after lower-casing produce exactly the same pattern-signal
set, whatever the markers. -/
theorem c5_pattern_case_insensitive (s1 s2 : PageSnapshot)
    (m1 m2 : List (List Char))
    (h : lowerStr s1.source = lowerStr s2.source) :
    (classify s1 m1).signals.filter Signal.isPatternSig =
      (classify s2 m2).signals.filter Signal.isPatternSig := by
  have hmp : matchedPatterns s1.source = matchedPatterns s2.source := by
    unfold matchedPatterns
    rw [h]
  show (classifySignals s1 m1).filter _ = (classifySignals s2 m2).filter _
  rw [filter_patternSig, filter_patternSig, hmp]

/-- Witness for C5: a source saying `ERROR` and one saying `error` carry
the same pattern signals. -/
theorem c5_pattern_case_insensitive_witness :
    (classify { title := [], source := "ERROR".toList, bodyText := [],
                consoleLog := [], loadTimeMs := 0 } []).signals.filter
        Signal.isPatternSig =
      (classify { title := [], source := "error".toList, bodyText := [],
                  consoleLog := [], loadTimeMs := 0 } []).signals.filter
        Signal.isPatternSig :=
  c5_pattern_case_insensitive _ _ [] [] (by decide)

/-- Counterexample to claim C6 as stated: the body text `" healthy"` is not
the literal string `"healthy"`, yet the health check records a pass,
because the code strips whitespace before comparing. -/
theorem c6_health_check_counterexample :
    test_health_check (some (' ' :: "healthy".toList)) = true ∧
    (' ' :: "healthy".toList) ≠ "healthy".toList := by
  constructor
  · decide
  · decide

/-- Claim C6 as amended: the health check passes if and only if a body text
was obtained and it equals `"healthy"` after stripping leading and trailing
whitespace; any other body, and any failure to fetch one, yields a recorded
failure. -/
theorem c6_health_check_iff (bodyText : Option (List Char)) :
    test_health_check bodyText = true ↔
      ∃ t, bodyText = some t ∧ pyStrip t = "healthy".toList := by
  cases bodyText with
  | none => simp [test_health_check]
  | some t => simp [test_health_check]

/-- Claim C7: the process exits 0 exactly when setup succeeded and every
recorded check passed, and exits 1 whenever setup failed before any check
ran. -/
theorem c7_exit_code (r : RunOutcome) :
    (mainExit r = 0 ↔
      r.setupOk = true ∧ ∀ t ∈ recordedResults r, t.passed = true) ∧
    (r.setupOk = false → mainExit r = 1) := by
  rcases r with ⟨setupOk, checks⟩
  cases setupOk with
  | false =>
    constructor
    · simp [mainExit, run_all_tests]
    · intro h
      simp [mainExit, run_all_tests]
  | true =>
    constructor
    · have hkey : mainExit ⟨true, checks⟩ = 0 ↔
          List.countP TestResult.passed checks = checks.length := by
        unfold mainExit run_all_tests generate_report
        by_cases hc : List.countP TestResult.passed checks = checks.length
        · simp [hc]
        · simp [beq_iff_eq, hc]
      rw [hkey, List.countP_eq_length]
      simp [recordedResults]
    · intro h
      exact absurd h (by simp)

/-- Witness for C7: a run with successful setup and one passed check exits
with code 0. -/
theorem c7_exit_code_witness :
    mainExit { setupOk := true, checks := [TestResult.plain true] } = 0 :=
  (c7_exit_code { setupOk := true, checks := [TestResult.plain true] }).1.mpr
    ⟨rfl, by decide⟩

/-- Claim C8: sampleViewports produces exactly one result per input
viewport, in the input order — projecting each result back to its viewport
recovers the input sequence. -/
theorem c8_sampleViewports_order (displayed : Viewport → Bool)
    (viewports : List Viewport) :
    (sampleViewports displayed viewports).length = viewports.length ∧
    (sampleViewports displayed viewports).map ViewportProbeResult.viewport
      = viewports := by
  constructor
  · simp [sampleViewports]
  · unfold sampleViewports
    rw [List.map_map]
    exact List.map_id viewports

/-- Claim C9 (code divergence): on the run of `browser-test.py` in which
`webdriver.Chrome` succeeds but `driver.implicitly_wait(10)` then raises,
the session has been opened and the run terminates without closing it —
`setup_driver` swallows the exception and `run_all_tests` returns before
its `try`/`finally`, so `driver.quit()` is never reached. -/
theorem c9_session_leak :
    (runAllTestsTrace false true).opened = true ∧
    (runAllTestsTrace false true).closed = false :=
  ⟨rfl, rfl⟩

/-- Claim C10: the user-interaction check records a pass on every run in
which no exception is raised, even with zero buttons, links and inputs,
and records a failure exactly when an exception occurs. -/
theorem c10_user_interaction (buttons links inputs : Nat) :
    test_user_interaction false buttons links inputs = true ∧
    test_user_interaction true buttons links inputs = false := by
  constructor
  · simp [test_user_interaction]
  · rfl

end ForbiddenLibrary
